import Mathlib

/-!
Shallow embedding of the per-tick simulation core of the `asteroids-amethyst`
game (src/src/systems.rs, src/src/components.rs, src/src/resources.rs,
src/src/main.rs), together with theorems settling the frozen claims about it.

Conventions of the embedding:
* `f32` scalars are modelled as exact rationals (ℚ).
* Areas are carried in units of π: the source computes
  `radius.powf(2.0) * PI` and compares it against `MIN_RADIUS.powf(2.0) * PI`
  and its multiples; dividing every such quantity by π preserves all
  comparisons, subtractions and sums exactly, so an area `A` here stands for
  `A·π` in the source.
* Entities are natural-number ids; the component tables relevant to the
  collision system (a `Bounded` radius and a `Transform` translation) are
  partial maps on entities.
* Randomness (velocities, angular velocities, sprite choice) and audio cues
  are not observed by any claim and are omitted from the spawned-child record.
-/

namespace AsteroidsGame

/-- `ARENA_WIDTH` from src/src/main.rs. -/
def ARENA_WIDTH : ℚ := 300

/-- `ARENA_HEIGHT` from src/src/main.rs. -/
def ARENA_HEIGHT : ℚ := 300

/-- `AsteroidResource::MIN_RADIUS` from src/src/resources.rs. -/
def MIN_RADIUS : ℚ := 4

/-- The minimum asteroid area in units of π:
`Asteroids::MIN_RADIUS.powf(2.0) * PI` from `spawn_asteroid_cluster`
(src/src/systems.rs), divided by π. -/
def min_area : ℚ := MIN_RADIUS ^ 2

/-- The payload of `Collider::Deferred` as used in src/src/systems.rs
(`DeferredCollider::Bullet` for fresh bullets, `DeferredCollider::Asteroid`
for fresh split children).  Its declaration file is not in src/, only its
uses are; the variants are exactly the two constructed there. -/
inductive DeferredCollider where
  | bullet : DeferredCollider
  | asteroid : DeferredCollider
deriving DecidableEq, Repr

/-- The `Collider` component tag attached to every collidable entity
(variants as constructed and matched in src/src/systems.rs). -/
inductive Collider where
  | bullet : Collider
  | ship : Collider
  | asteroid : Collider
  | deferred : DeferredCollider → Collider
deriving DecidableEq, Repr

/-- Modelled from the spec: `DeferredCollider::to_collider` is called in
`CollisionSystem::run` (src/src/systems.rs line 477) but its definition is
not under src/.  Per the spec, a Deferred entity "graduates to plain
Asteroid kind" (§3, §4.4), i.e. the deferred payload maps to the plain
collider of the same kind. -/
def DeferredCollider.to_collider : DeferredCollider → Collider
  | DeferredCollider.bullet => Collider.bullet
  | DeferredCollider.asteroid => Collider.asteroid

/-- An entity id (generational indices are irrelevant to the claims). -/
abbrev Entity := ℕ

/-- A 2-d translation, as used by `Transform` for collision purposes. -/
abbrev Pos := ℚ × ℚ

/-- The component data of one asteroid spawned by `spawn_asteroid`
(src/src/systems.rs): its transform translation, its scale, the radius of the
`Bounded` ball attached by `new_bounded` (`MIN_RADIUS * scale`, per
`AsteroidResource::create_bounding_volume` in src/src/resources.rs), and its
`Collider` tag.  Random velocity, angular velocity and sprite index are
omitted (not observed by any claim). -/
structure Child where
  pos : Pos
  scale : ℚ
  radius : ℚ
  collider : Collider
deriving DecidableEq, Repr

/-- `spawn_asteroid` (src/src/systems.rs lines 360-392), restricted to the
observable component data: sets the transform scale, attaches a `Bounded`
ball of radius `MIN_RADIUS * scale`, and tags the entity
`Collider::Deferred(DeferredCollider::Asteroid)` when `defer_adding_bounds`
is true, `Collider::Asteroid` otherwise. -/
def spawn_asteroid (p : Pos) (scale : ℚ) (defer_adding_bounds : Bool) : Child :=
  { pos := p
    scale := scale
    radius := MIN_RADIUS * scale
    collider :=
      if defer_adding_bounds then Collider.deferred DeferredCollider.asteroid
      else Collider.asteroid }

/-- The `while c > min_area * 2.0 { c -= min_area; count += 1 }` loop of
`spawn_asteroid_cluster` (src/src/systems.rs lines 615-618), in units of π. -/
def clusterCount (c : ℚ) : ℕ :=
  if h : min_area * 2 < c then clusterCount (c - min_area) + 1 else 0
termination_by (⌈c⌉).toNat
decreasing_by
  have h32 : (32 : ℚ) < c := by
    have hma : min_area * 2 = 32 := by norm_num [min_area, MIN_RADIUS]
    linarith [hma ▸ h]
  have hc : (33 : ℤ) ≤ ⌈c⌉ := by
    have h1 : ((32 : ℤ) : ℚ) < (⌈c⌉ : ℚ) := by
      exact_mod_cast lt_of_lt_of_le h32 (Int.le_ceil c)
    have h2 : (32 : ℤ) < ⌈c⌉ := by exact_mod_cast h1
    omega
  have hsub : ⌈c - min_area⌉ = ⌈c⌉ - 16 := by
    have : c - min_area = c - ((16 : ℤ) : ℚ) := by norm_num [min_area, MIN_RADIUS]
    rw [this, Int.ceil_sub_int]
  rw [hsub]
  omega

/-- `spawn_asteroid_cluster` (src/src/systems.rs lines 599-641): computes the
child count from the area `c` and spawns that many children at the given
position, each with scale `1.0` and a deferred asteroid collider. -/
def spawn_asteroid_cluster (p : Pos) (c : ℚ) : List Child :=
  List.replicate (clusterCount c) (spawn_asteroid p 1 true)

/-- The component tables consulted by `CollisionSystem::run`: the `Bounded`
ball radius and the `Transform` translation of each entity (src/src/systems.rs
`asteroid_data`, lines 579-597). -/
structure World where
  radius : Entity → Option ℚ
  pos : Entity → Option Pos

/-- `asteroid_data` (src/src/systems.rs lines 579-597): looks up the entity's
bounding volume and transform; on success returns the translation together
with the bounding-circle area (`radius² `, in units of π). -/
def asteroid_data (w : World) (e : Entity) : Option (Pos × ℚ) :=
  match w.radius e with
  | none => none
  | some r =>
    match w.pos e with
    | none => none
    | some p => some (p, r ^ 2)

/-- The mutable state threaded through one run of `CollisionSystem::run`:
the `Game` modifiers (`player_is_immortal`, `player_is_dead`), the `Score`
counter, the `deferred` hash map built from every entity whose collider is
`Collider::Deferred` (entity ↦ deferred payload), and the accumulated
effects of the tick: entity ids passed to `entities.delete`, the argument
list of every call to `spawn_asteroid_cluster` (translation, area), and
every child spawned. -/
structure ResolveState where
  player_is_immortal : Bool
  player_is_dead : Bool
  score : ℕ
  deferred : List (Entity × DeferredCollider)
  deleted : List Entity
  calls : List (Pos × ℚ)
  children : List Child
deriving DecidableEq, Repr

/-- `deferred.remove(&e)` on the hash map, modelled on the association list
(keys are unique in the source map; filtering all entries with the key is
the same operation). -/
def removeDeferred (m : List (Entity × DeferredCollider)) (e : Entity) :
    List (Entity × DeferredCollider) :=
  m.filter (fun x => x.1 ≠ e)

/-- The tail of the per-collider loop body (src/src/systems.rs lines
541-567): if the `asteroids` vector is non-empty, average the collected
translations, sum the collected areas, and call `spawn_asteroid_cluster`
with the result; then delete the entity. -/
def finishCollider (st : ResolveState) (asteroids : List (Pos × ℚ))
    (e : Entity) : ResolveState :=
  let st :=
    if asteroids.isEmpty then st
    else
      let n : ℚ := asteroids.length
      let volume := (asteroids.map Prod.snd).sum
      let px := (asteroids.map (fun a => a.1.1)).sum / n
      let py := (asteroids.map (fun a => a.1.2)).sum / n
      { st with
        calls := st.calls ++ [((px, py), volume)]
        children := st.children ++ spawn_asteroid_cluster (px, py) volume }
  { st with deleted := st.deleted ++ [e] }

/-- One iteration of the `for c in &[a, b]` loop of `CollisionSystem::run`
(src/src/systems.rs lines 522-567): an immortal ship is skipped outright; a
mortal ship sets `player_is_dead` and is deleted; an asteroid collects its
`asteroid_data` (a vector of at most one element) and splinters; anything
else is just deleted. -/
def resolveCollider (w : World) (st : ResolveState) (c : Collider × Entity) :
    ResolveState :=
  match c with
  | (Collider.ship, e) =>
    if st.player_is_immortal then st
    else finishCollider { st with player_is_dead := true } [] e
  | (Collider.asteroid, e) => finishCollider st (asteroid_data w e).toList e
  | (_, e) => finishCollider st [] e

/-- The pair callback of `broad_phase.update` in `CollisionSystem::run`
(src/src/systems.rs lines 483-568), minus the sound cues: Deferred/Deferred
removes both sides from the deferred map and returns; Deferred against
anything else removes the deferred side and returns; a Bullet/Asteroid pair
(either order) scores a point; finally both colliders go through the
per-collider destruction loop. -/
def resolvePair (w : World) (st : ResolveState)
    (a b : Collider × Entity) : ResolveState :=
  match a, b with
  | (Collider.deferred _, ea), (Collider.deferred _, eb) =>
    { st with deferred := removeDeferred (removeDeferred st.deferred ea) eb }
  | (Collider.deferred _, e), _ =>
    { st with deferred := removeDeferred st.deferred e }
  | _, (Collider.deferred _, e) =>
    { st with deferred := removeDeferred st.deferred e }
  | _, _ =>
    let st :=
      match a, b with
      | (Collider.bullet, _), (Collider.asteroid, _) =>
        { st with score := st.score + 1 }
      | (Collider.asteroid, _), (Collider.bullet, _) =>
        { st with score := st.score + 1 }
      | _, _ => st
    resolveCollider w (resolveCollider w st a) b

/-- A full collision pass: fold the pair callback over the tick's
intersecting pairs (src/src/systems.rs line 483). -/
def resolveTick (w : World) (st : ResolveState)
    (pairs : List ((Collider × Entity) × (Collider × Entity))) : ResolveState :=
  pairs.foldl (fun st p => resolvePair w st p.1 p.2) st

/-- The end-of-tick graduation loop (src/src/systems.rs lines 570-573): every
entry left in the deferred map gets its collider component replaced by
`next.to_collider()`. -/
def undefer (st : ResolveState) : List (Entity × Collider) :=
  st.deferred.map (fun x => (x.1, x.2.to_collider))

/-- The entity ids a pair removes from the deferred map in `resolvePair`
(the deferred sides of the pair). -/
def pairDeferredKeys (a b : Collider × Entity) : List Entity :=
  match a, b with
  | (Collider.deferred _, ea), (Collider.deferred _, eb) => [ea, eb]
  | (Collider.deferred _, e), _ => [e]
  | _, (Collider.deferred _, e) => [e]
  | _, _ => []

/-- `LimitObjectsSystem::run` (src/src/systems.rs lines 252-270) applied to
one translation: each axis independently gains the arena dimension when
negative and loses it when strictly beyond the dimension. -/
def limitPos (p : Pos) : Pos :=
  let x := if p.1 < 0 then p.1 + ARENA_WIDTH
           else if ARENA_WIDTH < p.1 then p.1 - ARENA_WIDTH else p.1
  let y := if p.2 < 0 then p.2 + ARENA_HEIGHT
           else if ARENA_HEIGHT < p.2 then p.2 - ARENA_HEIGHT else p.2
  (x, y)

/-- The reload-relevant fields of the `Ship` component
(src/src/components.rs lines 76-106). -/
structure ShipState where
  reload_timer : ℚ
  time_to_reload : ℚ
deriving DecidableEq, Repr

/-- `Ship::default()` reload fields (src/src/components.rs lines 91-102):
`reload_timer = 0`, `time_to_reload = 0.1`. -/
def shipDefault : ShipState :=
  { reload_timer := 0, time_to_reload := 1 / 10 }

/-- The shooting-with-reload branch of `ShipInputSystem::run`
(src/src/systems.rs lines 183-206) for one ship and one tick: given the
frame delta and whether `shoot` is held, returns the updated ship state and
whether a bullet was pushed onto `new_bullets` this tick. -/
def shipTick (s : ShipState) (dt : ℚ) (shoot : Bool) : ShipState × Bool :=
  if s.reload_timer ≤ 0 then
    if shoot then ({ s with reload_timer := s.time_to_reload }, true)
    else (s, false)
  else
    let t := s.reload_timer - dt
    ({ s with reload_timer := if t < 0 then 0 else t }, false)

/-- Trace of `shipTick` over a list of per-tick inputs `(Δt, shoot)`:
records, for each tick, the state the tick started from, its inputs, and
whether it fired. -/
def shipTrace (s : ShipState) : List (ℚ × Bool) → List (ShipState × (ℚ × Bool) × Bool)
  | [] => []
  | i :: rest =>
    let r := shipTick s i.1 i.2
    (s, i, r.2) :: shipTrace r.1 rest

/-- Final ship state after running `shipTick` over a list of per-tick
inputs. -/
def shipRun (s : ShipState) : List (ℚ × Bool) → ShipState
  | [] => s
  | i :: rest => shipRun (shipTick s i.1 i.2).1 rest

/-- One tick of `KillBulletsSystem::run` (src/src/systems.rs lines 278-294)
for one bullet: decrement `time_to_live` by the frame delta, delete the
entity (`none`) if the result is ≤ 0, keep it alive otherwise. -/
def killBulletTick (ttl dt : ℚ) : Option ℚ :=
  let t := ttl - dt
  if t ≤ 0 then none else some t

/-- The bullet's state after `n` ticks of `KillBulletsSystem` at a constant
frame delta, starting from `Bullet::new()`-style ttl; `none` means the
entity was deleted on some earlier tick (a deleted entity never reappears). -/
def bulletAfter (ttl dt : ℚ) : ℕ → Option ℚ
  | 0 => some ttl
  | n + 1 =>
    match bulletAfter ttl dt n with
    | none => none
    | some t => killBulletTick t dt

/-- `Bullet::new()` (src/src/components.rs lines 113-117): two seconds to
live. -/
def bulletNew : ℚ := 2

/-- A concrete component table used by concrete instances below: entity 1 is
a ball of radius 4 at the origin, entity 2 a ball of radius 8 at (10, 0). -/
def exWorld : World :=
  { radius := fun e => if e = 1 then some 4 else if e = 2 then some 8 else none
    pos := fun e => if e = 1 then some (0, 0) else if e = 2 then some (10, 0) else none }

/-- A concrete resolver state: mortal, alive, score 0, nothing deferred,
deleted or spawned yet. -/
def exState : ResolveState :=
  { player_is_immortal := false
    player_is_dead := false
    score := 0
    deferred := []
    deleted := []
    calls := []
    children := [] }

/-!  Theorems.  First a layer of evaluation and preservation lemmas about the
embedded definitions, then one theorem (with counterexample and witness where
applicable) per claim. -/

/-- Numeric value of the minimum asteroid area (in units of π). -/
theorem min_area_val : min_area = 16 := by norm_num [min_area, MIN_RADIUS]

/-- Unfolding equation of the child-count loop. -/
theorem clusterCount_eq (c : ℚ) :
    clusterCount c = if min_area * 2 < c then clusterCount (c - min_area) + 1 else 0 := by
  rw [clusterCount]
  by_cases h : min_area * 2 < c <;> simp [h]

/-- Upper bound tying the child count to the destroyed area: the area never
reaches two minimum areas beyond the spawned total. -/
theorem clusterCount_le (c : ℚ) : c ≤ ((clusterCount c : ℚ) + 2) * min_area := by
  induction c using clusterCount.induct with
  | case1 x hx ih =>
    rw [clusterCount_eq, if_pos hx]
    push_cast
    rw [min_area_val] at *
    linarith
  | case2 x hx =>
    rw [clusterCount_eq, if_neg hx]
    rw [min_area_val] at *
    push_cast
    linarith

/-- Lower bound: a non-zero child count k needs area strictly beyond
(k+1) minimum areas. -/
theorem clusterCount_lt (c : ℚ) (h : clusterCount c ≠ 0) :
    ((clusterCount c : ℚ) + 1) * min_area < c := by
  induction c using clusterCount.induct with
  | case1 x hx ih =>
    rw [clusterCount_eq, if_pos hx]
    by_cases h0 : clusterCount (x - min_area) = 0
    · rw [h0]
      rw [min_area_val] at *
      push_cast
      linarith
    · have := ih h0
      rw [min_area_val] at *
      push_cast at *
      linarith
  | case2 x hx =>
    rw [clusterCount_eq, if_neg hx] at h
    exact absurd rfl h

/-- No children exactly when the area is at most two minimum areas. -/
theorem clusterCount_zero_iff (c : ℚ) : clusterCount c = 0 ↔ c ≤ 2 * min_area := by
  rw [clusterCount_eq]
  by_cases h : min_area * 2 < c
  · simp [h]
    linarith
  · simp [h]
    linarith

/-- Exactly two children exactly when the area lies in
(3·min_area, 4·min_area]. -/
theorem clusterCount_two_iff (c : ℚ) :
    clusterCount c = 2 ↔ 3 * min_area < c ∧ c ≤ 4 * min_area := by
  constructor
  · intro h
    have h1 := clusterCount_lt c (by omega)
    have h2 := clusterCount_le c
    rw [h] at h1 h2
    push_cast at h1 h2
    constructor <;> linarith
  · rintro ⟨h1, h2⟩
    have hz : clusterCount c ≠ 0 := by
      rw [Ne, clusterCount_zero_iff]
      rw [min_area_val] at *
      linarith
    have hlt := clusterCount_lt c hz
    have hle := clusterCount_le c
    rw [min_area_val] at *
    have hk1 : ((clusterCount c : ℚ)) < 3 := by linarith
    have hk2 : (1 : ℚ) < (clusterCount c : ℚ) := by linarith
    have hn1 : clusterCount c < 3 := by exact_mod_cast hk1
    have hn2 : 1 < clusterCount c := by exact_mod_cast hk2
    omega

/-- The split tail of the per-collider loop does not touch the immortality
flag. -/
theorem finishCollider_immortal (st : ResolveState) (l : List (Pos × ℚ)) (e : Entity) :
    (finishCollider st l e).player_is_immortal = st.player_is_immortal := by
  by_cases h : l.isEmpty <;> simp [finishCollider, h]

/-- The split tail of the per-collider loop does not touch the death flag. -/
theorem finishCollider_dead (st : ResolveState) (l : List (Pos × ℚ)) (e : Entity) :
    (finishCollider st l e).player_is_dead = st.player_is_dead := by
  by_cases h : l.isEmpty <;> simp [finishCollider, h]

/-- The split tail of the per-collider loop does not touch the score. -/
theorem finishCollider_score (st : ResolveState) (l : List (Pos × ℚ)) (e : Entity) :
    (finishCollider st l e).score = st.score := by
  by_cases h : l.isEmpty <;> simp [finishCollider, h]

/-- The split tail of the per-collider loop does not touch the deferred
map. -/
theorem finishCollider_deferred (st : ResolveState) (l : List (Pos × ℚ)) (e : Entity) :
    (finishCollider st l e).deferred = st.deferred := by
  by_cases h : l.isEmpty <;> simp [finishCollider, h]

/-- The per-collider loop always ends by deleting the entity it handled. -/
theorem finishCollider_deleted (st : ResolveState) (l : List (Pos × ℚ)) (e : Entity) :
    (finishCollider st l e).deleted = st.deleted ++ [e] := by
  by_cases h : l.isEmpty <;> simp [finishCollider, h]

/-- Resolving one collider never changes the immortality flag. -/
theorem resolveCollider_immortal (w : World) (st : ResolveState) (c : Collider × Entity) :
    (resolveCollider w st c).player_is_immortal = st.player_is_immortal := by
  obtain ⟨col, e⟩ := c
  cases col <;> simp [resolveCollider, finishCollider_immortal]
  split <;> simp [finishCollider_immortal]

/-- Resolving one collider never changes the deferred map. -/
theorem resolveCollider_deferred (w : World) (st : ResolveState) (c : Collider × Entity) :
    (resolveCollider w st c).deferred = st.deferred := by
  obtain ⟨col, e⟩ := c
  cases col <;> simp [resolveCollider, finishCollider_deferred]
  split <;> simp [finishCollider_deferred]

/-- Under immortality, resolving a collider never changes the death flag. -/
theorem resolveCollider_dead_immortal (w : World) (st : ResolveState) (c : Collider × Entity)
    (h : st.player_is_immortal = true) :
    (resolveCollider w st c).player_is_dead = st.player_is_dead := by
  obtain ⟨col, e⟩ := c
  cases col <;> simp [resolveCollider, finishCollider_dead, h]

/-- Resolving a pair never changes the immortality flag. -/
theorem resolvePair_immortal (w : World) (st : ResolveState) (a b : Collider × Entity) :
    (resolvePair w st a b).player_is_immortal = st.player_is_immortal := by
  obtain ⟨ca, ea⟩ := a
  obtain ⟨cb, eb⟩ := b
  cases ca <;> cases cb <;>
    simp [resolvePair, resolveCollider_immortal]

/-- Under immortality, resolving a pair never changes the death flag. -/
theorem resolvePair_dead_immortal (w : World) (st : ResolveState) (a b : Collider × Entity)
    (h : st.player_is_immortal = true) :
    (resolvePair w st a b).player_is_dead = st.player_is_dead := by
  obtain ⟨ca, ea⟩ := a
  obtain ⟨cb, eb⟩ := b
  cases ca <;> cases cb <;>
    simp [resolvePair] <;>
    rw [resolveCollider_dead_immortal, resolveCollider_dead_immortal] <;>
    simp [resolveCollider_immortal, h]

/-- A deferred-map entry whose key is not a deferred side of the pair
survives the pair resolution. -/
theorem resolvePair_deferred_mem (w : World) (st : ResolveState) (a b : Collider × Entity)
    (e : Entity) (d : DeferredCollider)
    (hmem : (e, d) ∈ st.deferred) (hk : e ∉ pairDeferredKeys a b) :
    (e, d) ∈ (resolvePair w st a b).deferred := by
  obtain ⟨ca, ea⟩ := a
  obtain ⟨cb, eb⟩ := b
  cases ca <;> cases cb <;>
    simp [pairDeferredKeys] at hk <;>
    simp [resolvePair, resolveCollider_deferred, removeDeferred] <;>
    simp [List.mem_filter, hmem] <;>
    tauto

/-- An already-deleted entity stays in the delete list through any collider
resolution. -/
theorem resolveCollider_deleted_mono (w : World) (st : ResolveState) (c : Collider × Entity)
    (x : Entity) (h : x ∈ st.deleted) : x ∈ (resolveCollider w st c).deleted := by
  obtain ⟨col, e⟩ := c
  cases col <;> simp [resolveCollider, finishCollider_deleted, h]
  split <;> simp [finishCollider_deleted, h]

/-- The death flag, once set, survives any collider resolution. -/
theorem resolveCollider_dead_mono (w : World) (st : ResolveState) (c : Collider × Entity)
    (h : st.player_is_dead = true) : (resolveCollider w st c).player_is_dead = true := by
  obtain ⟨col, e⟩ := c
  cases col <;> simp [resolveCollider, finishCollider_dead, h]
  split <;> simp [finishCollider_dead, h]

/-- Resolving a mortal ship collider sets the death flag and deletes the
ship entity. -/
theorem resolveCollider_ship_mortal (w : World) (st : ResolveState) (e : Entity)
    (him : st.player_is_immortal = false) :
    (resolveCollider w st (Collider.ship, e)).player_is_dead = true ∧
      e ∈ (resolveCollider w st (Collider.ship, e)).deleted := by
  simp [resolveCollider, him, finishCollider_dead, finishCollider_deleted]

/-- A deferred-map entry whose key appears in no pair of the tick survives
the whole collision pass. -/
theorem resolveTick_deferred_mem (w : World) (st : ResolveState)
    (pairs : List ((Collider × Entity) × (Collider × Entity)))
    (e : Entity) (d : DeferredCollider)
    (hmem : (e, d) ∈ st.deferred)
    (hk : ∀ p ∈ pairs, e ∉ pairDeferredKeys p.1 p.2) :
    (e, d) ∈ (resolveTick w st pairs).deferred := by
  induction pairs generalizing st with
  | nil => exact hmem
  | cons p rest ih =>
    exact ih _ (resolvePair_deferred_mem w st p.1 p.2 e d hmem (hk p (List.mem_cons_self p rest)))
      (fun q hq => hk q (List.mem_cons_of_mem p hq))

/-- Value of the child-count loop at three minimum areas. -/
theorem clusterCount_48 : clusterCount 48 = 1 := by
  rw [clusterCount_eq, min_area_val]
  norm_num
  rw [clusterCount_eq, min_area_val]
  norm_num

/-- One axis of the boundary wrap: for an input strictly between minus one
and two arena dimensions the result lies in the closed interval
[0, dimension], differs from the input by a multiple of the dimension, and
is the identity on [0, dimension]. -/
theorem wrap_axis (x W : ℚ) (hW : 0 < W) (h1 : -W < x) (h2 : x < 2 * W) :
    (0 ≤ (if x < 0 then x + W else if W < x then x - W else x) ∧
      (if x < 0 then x + W else if W < x then x - W else x) ≤ W) ∧
    ((if x < 0 then x + W else if W < x then x - W else x) = x ∨
      (if x < 0 then x + W else if W < x then x - W else x) = x + W ∨
      (if x < 0 then x + W else if W < x then x - W else x) = x - W) ∧
    (0 ≤ x → x ≤ W → (if x < 0 then x + W else if W < x then x - W else x) = x) := by
  split_ifs with ha hb
  · exact ⟨⟨by linarith, by linarith⟩, Or.inr (Or.inl rfl), fun h0 _ => by linarith⟩
  · exact ⟨⟨by linarith, by linarith⟩, Or.inr (Or.inr rfl), fun _ h0 => by linarith⟩
  · exact ⟨⟨by linarith, by linarith⟩, Or.inl rfl, fun _ _ => rfl⟩

/-- One ship-input tick fires exactly when the reload timer is zero and
shoot is held (given a non-negative timer). -/
theorem shipTick_fired (s : ShipState) (dt : ℚ) (shoot : Bool)
    (h1 : 0 ≤ s.reload_timer) :
    (shipTick s dt shoot).2 = true ↔ (s.reload_timer = 0 ∧ shoot = true) := by
  by_cases h : s.reload_timer ≤ 0
  · have h0 : s.reload_timer = 0 := le_antisymm h h1
    cases shoot <;> simp [shipTick, h, h0]
  · have h0 : s.reload_timer ≠ 0 := fun hh => h (le_of_eq hh)
    simp [shipTick, h, h0]

/-- One ship-input tick keeps the reload timer non-negative and the reload
interval unchanged. -/
theorem shipTick_timer (s : ShipState) (dt : ℚ) (shoot : Bool)
    (h1 : 0 ≤ s.reload_timer) (h2 : 0 ≤ s.time_to_reload) :
    0 ≤ (shipTick s dt shoot).1.reload_timer ∧
      (shipTick s dt shoot).1.time_to_reload = s.time_to_reload := by
  simp only [shipTick]
  split_ifs with h hs ht
  · exact ⟨h2, rfl⟩
  · exact ⟨h1, rfl⟩
  · exact ⟨le_refl 0, rfl⟩
  · constructor
    · simp only [not_lt] at ht
      exact ht
    · rfl

/-- C1, counterexample to the claim as stated: with immortality off, the
intersecting pair Ship(3)/Asteroid(2) sets `player_is_dead` but, contrary
to the claim, the Ship entity 3 IS passed to `entities.delete` by the
resolver. -/
theorem claim1_counterexample :
    (resolvePair exWorld exState (Collider.ship, 3) (Collider.asteroid, 2)).player_is_dead
        = true ∧
    3 ∈ (resolvePair exWorld exState (Collider.ship, 3) (Collider.asteroid, 2)).deleted := by
  decide

/-- C1 (amended): for every intersecting pair whose kinds are Ship and a
plain (non-Deferred) X, in either order, when `player_is_immortal` is false
the resolver sets `player_is_dead = true` AND deletes the Ship entity. -/
theorem claim1_ship_death_deletes_ship (w : World) (st : ResolveState) (x : Collider)
    (e1 e2 : Entity)
    (hx : ∀ d, x ≠ Collider.deferred d)
    (him : st.player_is_immortal = false) :
    ((resolvePair w st (Collider.ship, e1) (x, e2)).player_is_dead = true ∧
      e1 ∈ (resolvePair w st (Collider.ship, e1) (x, e2)).deleted) ∧
    ((resolvePair w st (x, e2) (Collider.ship, e1)).player_is_dead = true ∧
      e1 ∈ (resolvePair w st (x, e2) (Collider.ship, e1)).deleted) := by
  have him2 : ∀ c : Collider × Entity, (resolveCollider w st c).player_is_immortal = false := by
    intro c
    rw [resolveCollider_immortal]
    exact him
  cases x
  case deferred d => exact absurd rfl (hx d)
  all_goals
    simp only [resolvePair]
    refine ⟨⟨?_, ?_⟩, ?_, ?_⟩
    · exact resolveCollider_dead_mono _ _ _ (resolveCollider_ship_mortal w st e1 him).1
    · exact resolveCollider_deleted_mono _ _ _ _ (resolveCollider_ship_mortal w st e1 him).2
    · exact (resolveCollider_ship_mortal w _ e1 (him2 _)).1
    · exact (resolveCollider_ship_mortal w _ e1 (him2 _)).2

/-- C1 witness: the amended theorem instantiated at the mortal state and a
Ship(3)/Asteroid(2) pair. -/
theorem claim1_witness :
    exState.player_is_immortal = false ∧
    (((resolvePair exWorld exState (Collider.ship, 3) (Collider.asteroid, 2)).player_is_dead
          = true ∧
        3 ∈ (resolvePair exWorld exState (Collider.ship, 3) (Collider.asteroid, 2)).deleted) ∧
      ((resolvePair exWorld exState (Collider.asteroid, 2) (Collider.ship, 3)).player_is_dead
          = true ∧
        3 ∈ (resolvePair exWorld exState (Collider.asteroid, 2) (Collider.ship, 3)).deleted)) :=
  ⟨rfl, claim1_ship_death_deletes_ship exWorld exState Collider.asteroid 3 2
    (fun d h => Collider.noConfusion h) rfl⟩

/-- C2, counterexample to the claim as stated: a plain Bullet(1)/Ship(3)
pair is NOT ignored: the resolver sets `player_is_dead`, and deletes both
the bullet and the ship (the score is indeed unchanged). -/
theorem claim2_counterexample :
    (resolvePair exWorld exState (Collider.bullet, 1) (Collider.ship, 3)).player_is_dead
        = true ∧
    (resolvePair exWorld exState (Collider.bullet, 1) (Collider.ship, 3)).deleted = [1, 3] ∧
    (resolvePair exWorld exState (Collider.bullet, 1) (Collider.ship, 3)).score
        = exState.score := by
  decide

/-- C2 (amended): a pair of plain Bullet and Ship kinds, in either order,
leaves the score and the spawned children unchanged but is not ignored:
both entities are deleted and, with immortality off, `player_is_dead` is
set.  Only while the bullet's collider is still `Deferred(Bullet)` is a
Bullet/Ship pair ignored, save for unmarking the bullet in the deferred
map. -/
theorem claim2_bullet_ship_not_ignored (w : World) (st : ResolveState) (e1 e2 : Entity)
    (him : st.player_is_immortal = false) :
    ((resolvePair w st (Collider.bullet, e1) (Collider.ship, e2)).player_is_dead = true ∧
      e1 ∈ (resolvePair w st (Collider.bullet, e1) (Collider.ship, e2)).deleted ∧
      e2 ∈ (resolvePair w st (Collider.bullet, e1) (Collider.ship, e2)).deleted ∧
      (resolvePair w st (Collider.bullet, e1) (Collider.ship, e2)).score = st.score ∧
      (resolvePair w st (Collider.bullet, e1) (Collider.ship, e2)).children = st.children) ∧
    ((resolvePair w st (Collider.ship, e2) (Collider.bullet, e1)).player_is_dead = true ∧
      e1 ∈ (resolvePair w st (Collider.ship, e2) (Collider.bullet, e1)).deleted ∧
      e2 ∈ (resolvePair w st (Collider.ship, e2) (Collider.bullet, e1)).deleted ∧
      (resolvePair w st (Collider.ship, e2) (Collider.bullet, e1)).score = st.score ∧
      (resolvePair w st (Collider.ship, e2) (Collider.bullet, e1)).children = st.children) ∧
    (resolvePair w st (Collider.deferred DeferredCollider.bullet, e1) (Collider.ship, e2)
      = { st with deferred := removeDeferred st.deferred e1 }) ∧
    (resolvePair w st (Collider.ship, e2) (Collider.deferred DeferredCollider.bullet, e1)
      = { st with deferred := removeDeferred st.deferred e1 }) := by
  simp only [resolvePair]
  refine ⟨⟨?_, ?_, ?_, ?_, ?_⟩, ⟨?_, ?_, ?_, ?_, ?_⟩, by trivial, by trivial⟩ <;>
    simp [resolveCollider, him, finishCollider, resolveCollider_immortal]

/-- C2 witness: the amended theorem instantiated at the mortal state with
bullet entity 1 and ship entity 3. -/
theorem claim2_witness :
    exState.player_is_immortal = false ∧
    (((resolvePair exWorld exState (Collider.bullet, 1) (Collider.ship, 3)).player_is_dead
          = true ∧
        1 ∈ (resolvePair exWorld exState (Collider.bullet, 1) (Collider.ship, 3)).deleted ∧
        3 ∈ (resolvePair exWorld exState (Collider.bullet, 1) (Collider.ship, 3)).deleted ∧
        (resolvePair exWorld exState (Collider.bullet, 1) (Collider.ship, 3)).score
          = exState.score ∧
        (resolvePair exWorld exState (Collider.bullet, 1) (Collider.ship, 3)).children
          = exState.children) ∧
      ((resolvePair exWorld exState (Collider.ship, 3) (Collider.bullet, 1)).player_is_dead
          = true ∧
        1 ∈ (resolvePair exWorld exState (Collider.ship, 3) (Collider.bullet, 1)).deleted ∧
        3 ∈ (resolvePair exWorld exState (Collider.ship, 3) (Collider.bullet, 1)).deleted ∧
        (resolvePair exWorld exState (Collider.ship, 3) (Collider.bullet, 1)).score
          = exState.score ∧
        (resolvePair exWorld exState (Collider.ship, 3) (Collider.bullet, 1)).children
          = exState.children) ∧
      (resolvePair exWorld exState (Collider.deferred DeferredCollider.bullet, 1)
          (Collider.ship, 3)
        = { exState with deferred := removeDeferred exState.deferred 1 }) ∧
      (resolvePair exWorld exState (Collider.ship, 3)
          (Collider.deferred DeferredCollider.bullet, 1)
        = { exState with deferred := removeDeferred exState.deferred 1 })) :=
  ⟨rfl, claim2_bullet_ship_not_ignored exWorld exState 1 3 rfl⟩

/-- C3, counterexample to the claim as stated: entity 1 is Deferred and its
only contact this tick is with the plain Asteroid 2 (no Deferred/Deferred
contact), yet it is absent from the end-of-tick graduation list: a
Deferred/non-Deferred contact cancels graduation. -/
theorem claim3_counterexample :
    (1, Collider.asteroid) ∉ undefer (resolveTick exWorld
      { exState with deferred := [(1, DeferredCollider.asteroid)] }
      [((Collider.deferred DeferredCollider.asteroid, 1), (Collider.asteroid, 2))]) := by
  decide

/-- C3 (amended): at end of tick, every entity of the deferred map that was
involved in NO contact at all during the tick (it is a deferred side of no
resolved pair) graduates to its plain collider kind.  Any contact,
Deferred/Deferred or Deferred/non-Deferred, cancels graduation for this
tick. -/
theorem claim3_graduation_requires_no_contact (w : World) (st : ResolveState)
    (pairs : List ((Collider × Entity) × (Collider × Entity)))
    (e : Entity) (d : DeferredCollider)
    (hmem : (e, d) ∈ st.deferred)
    (hk : ∀ p ∈ pairs, e ∉ pairDeferredKeys p.1 p.2) :
    (e, DeferredCollider.to_collider d) ∈ undefer (resolveTick w st pairs) := by
  have h := resolveTick_deferred_mem w st pairs e d hmem hk
  exact List.mem_map.mpr ⟨(e, d), h, rfl⟩

/-- C3 witness: the amended theorem instantiated with deferred entity 1 and
a tick whose only pair does not involve it. -/
theorem claim3_witness :
    (1 : Entity) ∉ pairDeferredKeys (Collider.bullet, (5 : Entity))
        (Collider.asteroid, (2 : Entity)) ∧
    ((1 : Entity), DeferredCollider.to_collider DeferredCollider.asteroid) ∈
      undefer (resolveTick exWorld
        { exState with deferred := [(1, DeferredCollider.asteroid)] }
        [((Collider.bullet, 5), (Collider.asteroid, 2))]) :=
  ⟨by decide,
    claim3_graduation_requires_no_contact exWorld
      { exState with deferred := [(1, DeferredCollider.asteroid)] }
      [((Collider.bullet, 5), (Collider.asteroid, 2))] 1 DeferredCollider.asteroid
      (by simp) (by decide)⟩

/-- C4, counterexample to the claim as stated: an asteroid of area exactly
3·MIN_AREA (= 48·π) spawns 1 child, not the claimed 2; and an asteroid of
area 2.5·MIN_AREA (< 3·MIN_AREA) spawns 1 child, not the claimed 0. -/
theorem claim4_counterexample :
    (spawn_asteroid_cluster ((0 : ℚ), (0 : ℚ)) (3 * min_area)).length = 1 ∧
    (spawn_asteroid_cluster ((0 : ℚ), (0 : ℚ)) ((5 / 2) * min_area)).length = 1 := by
  constructor <;>
  · simp only [spawn_asteroid_cluster, List.length_replicate, min_area_val]
    rw [clusterCount_eq, min_area_val]
    norm_num
    rw [clusterCount_eq, min_area_val]
    norm_num

/-- C4 (amended): every child of a split is tagged Deferred; 0 children
spawn exactly when the destroyed area A satisfies A ≤ 2·MIN_AREA; exactly 2
children spawn exactly when 3·MIN_AREA < A ≤ 4·MIN_AREA; and the total
child area (MIN_AREA per child) never exceeds A. -/
theorem claim4_split_count (p : Pos) (c : ℚ) (hc : 0 ≤ c) :
    (∀ ch ∈ spawn_asteroid_cluster p c,
        ch.collider = Collider.deferred DeferredCollider.asteroid) ∧
    ((spawn_asteroid_cluster p c).length = 0 ↔ c ≤ 2 * min_area) ∧
    ((spawn_asteroid_cluster p c).length = 2 ↔ 3 * min_area < c ∧ c ≤ 4 * min_area) ∧
    ((spawn_asteroid_cluster p c).length : ℚ) * min_area ≤ c := by
  refine ⟨?_, ?_, ?_, ?_⟩
  · intro ch hch
    have hch2 : ch = spawn_asteroid p 1 true :=
      List.eq_of_mem_replicate (by simpa [spawn_asteroid_cluster] using hch)
    rw [hch2]
    simp [spawn_asteroid]
  · simp [spawn_asteroid_cluster, clusterCount_zero_iff]
  · simp [spawn_asteroid_cluster, clusterCount_two_iff]
  · simp only [spawn_asteroid_cluster, List.length_replicate]
    by_cases h : clusterCount c = 0
    · simp [h, hc]
    · have hlt := clusterCount_lt c h
      rw [min_area_val] at *
      linarith

/-- C4 witness: the amended theorem instantiated at area 60·π. -/
theorem claim4_witness :
    (0 : ℚ) ≤ 60 ∧
    ((∀ ch ∈ spawn_asteroid_cluster ((0 : ℚ), (0 : ℚ)) 60,
        ch.collider = Collider.deferred DeferredCollider.asteroid) ∧
      ((spawn_asteroid_cluster ((0 : ℚ), (0 : ℚ)) 60).length = 0 ↔ (60 : ℚ) ≤ 2 * min_area) ∧
      ((spawn_asteroid_cluster ((0 : ℚ), (0 : ℚ)) 60).length = 2 ↔
        3 * min_area < (60 : ℚ) ∧ (60 : ℚ) ≤ 4 * min_area) ∧
      ((spawn_asteroid_cluster ((0 : ℚ), (0 : ℚ)) 60).length : ℚ) * min_area ≤ 60) :=
  ⟨by norm_num, claim4_split_count ((0 : ℚ), (0 : ℚ)) 60 (by norm_num)⟩

/-- C5, counterexample to the claim as stated: for the Asteroid(1) (area
16·π at the origin) / Asteroid(2) (area 64·π at (10,0)) pair, the split
routine receives two separate calls, one per parent with that parent's own
position and area; the claimed single merged call with the combined area
80·π at the midpoint (5,0) never happens. -/
theorem claim5_counterexample :
    (resolvePair exWorld exState (Collider.asteroid, 1) (Collider.asteroid, 2)).calls
        = [(((0 : ℚ), (0 : ℚ)), (16 : ℚ)), (((10 : ℚ), (0 : ℚ)), (64 : ℚ))] ∧
    (((5 : ℚ), (0 : ℚ)), (80 : ℚ)) ∉
      (resolvePair exWorld exState (Collider.asteroid, 1) (Collider.asteroid, 2)).calls := by
  have h : (resolvePair exWorld exState (Collider.asteroid, 1) (Collider.asteroid, 2)).calls
      = [(((0 : ℚ), (0 : ℚ)), (16 : ℚ)), (((10 : ℚ), (0 : ℚ)), (64 : ℚ))] := by
    norm_num [resolvePair, resolveCollider, finishCollider, asteroid_data, exWorld, exState]
  refine ⟨h, ?_⟩
  rw [h]
  norm_num

/-- C5 (amended): for every Asteroid/Asteroid pair whose component data is
present, the resolver passes each parent's own position and area to the
split routine in its own call (two calls, not one), spawns the two
resulting clusters, deletes both parents, and leaves score and death flag
unchanged. -/
theorem claim5_per_parent_split (w : World) (st : ResolveState) (e1 e2 : Entity)
    (p1 p2 : Pos) (a1 a2 : ℚ)
    (h1 : asteroid_data w e1 = some (p1, a1))
    (h2 : asteroid_data w e2 = some (p2, a2)) :
    (resolvePair w st (Collider.asteroid, e1) (Collider.asteroid, e2)).calls
        = st.calls ++ [(p1, a1), (p2, a2)] ∧
    (resolvePair w st (Collider.asteroid, e1) (Collider.asteroid, e2)).deleted
        = st.deleted ++ [e1, e2] ∧
    (resolvePair w st (Collider.asteroid, e1) (Collider.asteroid, e2)).children
        = st.children ++ spawn_asteroid_cluster p1 a1 ++ spawn_asteroid_cluster p2 a2 ∧
    (resolvePair w st (Collider.asteroid, e1) (Collider.asteroid, e2)).score = st.score ∧
    (resolvePair w st (Collider.asteroid, e1) (Collider.asteroid, e2)).player_is_dead
        = st.player_is_dead := by
  simp only [resolvePair, resolveCollider, h1, h2, Option.toList_some]
  simp [finishCollider]

/-- C5 witness: the amended theorem instantiated at the two concrete
asteroids of `exWorld`. -/
theorem claim5_witness :
    asteroid_data exWorld 1 = some (((0 : ℚ), (0 : ℚ)), (16 : ℚ)) ∧
    asteroid_data exWorld 2 = some (((10 : ℚ), (0 : ℚ)), (64 : ℚ)) ∧
    ((resolvePair exWorld exState (Collider.asteroid, 1) (Collider.asteroid, 2)).calls
        = exState.calls ++ [(((0 : ℚ), (0 : ℚ)), (16 : ℚ)), (((10 : ℚ), (0 : ℚ)), (64 : ℚ))] ∧
      (resolvePair exWorld exState (Collider.asteroid, 1) (Collider.asteroid, 2)).deleted
        = exState.deleted ++ [1, 2] ∧
      (resolvePair exWorld exState (Collider.asteroid, 1) (Collider.asteroid, 2)).children
        = exState.children ++ spawn_asteroid_cluster ((0 : ℚ), (0 : ℚ)) 16
            ++ spawn_asteroid_cluster ((10 : ℚ), (0 : ℚ)) 64 ∧
      (resolvePair exWorld exState (Collider.asteroid, 1) (Collider.asteroid, 2)).score
        = exState.score ∧
      (resolvePair exWorld exState (Collider.asteroid, 1) (Collider.asteroid, 2)).player_is_dead
        = exState.player_is_dead) := by
  have h1 : asteroid_data exWorld 1 = some (((0 : ℚ), (0 : ℚ)), (16 : ℚ)) := by
    norm_num [asteroid_data, exWorld]
  have h2 : asteroid_data exWorld 2 = some (((10 : ℚ), (0 : ℚ)), (64 : ℚ)) := by
    norm_num [asteroid_data, exWorld]
  exact ⟨h1, h2, claim5_per_parent_split exWorld exState 1 2 _ _ _ _ h1 h2⟩

/-- C6, counterexample to the claim as stated: from the in-range position
100 with displacement 200 (|200| < 300), the wrapped coordinate is exactly
300 = ARENA_WIDTH, which is NOT within the claimed half-open range
[0, dimension). -/
theorem claim6_counterexample :
    (0 : ℚ) ≤ 100 ∧ (100 : ℚ) < ARENA_WIDTH ∧ |(200 : ℚ)| < ARENA_WIDTH ∧
    (limitPos (100 + 200, 0)).1 = 300 ∧
    ¬ (limitPos (100 + 200, 0)).1 < ARENA_WIDTH := by
  norm_num [limitPos, ARENA_WIDTH, ARENA_HEIGHT]

/-- C6 (amended): for every position p with coordinates in
[0, dimension] and displacement d with |d| < dimension per axis, one
application of the boundary wrap to p + d yields a result in the CLOSED
range [0, dimension] on each axis, the result differs from p + d by
exactly one arena dimension or not at all (motion on a torus), and the
wrap is a no-op on coordinates already in [0, dimension]. -/
theorem claim6_wrap_range (p d : Pos)
    (hx0 : 0 ≤ p.1) (hx1 : p.1 ≤ ARENA_WIDTH) (hdx : |d.1| < ARENA_WIDTH)
    (hy0 : 0 ≤ p.2) (hy1 : p.2 ≤ ARENA_HEIGHT) (hdy : |d.2| < ARENA_HEIGHT) :
    (0 ≤ (limitPos (p.1 + d.1, p.2 + d.2)).1 ∧
      (limitPos (p.1 + d.1, p.2 + d.2)).1 ≤ ARENA_WIDTH ∧
      0 ≤ (limitPos (p.1 + d.1, p.2 + d.2)).2 ∧
      (limitPos (p.1 + d.1, p.2 + d.2)).2 ≤ ARENA_HEIGHT) ∧
    ((limitPos (p.1 + d.1, p.2 + d.2)).1 = p.1 + d.1 ∨
      (limitPos (p.1 + d.1, p.2 + d.2)).1 = p.1 + d.1 + ARENA_WIDTH ∨
      (limitPos (p.1 + d.1, p.2 + d.2)).1 = p.1 + d.1 - ARENA_WIDTH) ∧
    ((limitPos (p.1 + d.1, p.2 + d.2)).2 = p.2 + d.2 ∨
      (limitPos (p.1 + d.1, p.2 + d.2)).2 = p.2 + d.2 + ARENA_HEIGHT ∨
      (limitPos (p.1 + d.1, p.2 + d.2)).2 = p.2 + d.2 - ARENA_HEIGHT) ∧
    ((0 ≤ p.1 + d.1 → p.1 + d.1 ≤ ARENA_WIDTH →
        (limitPos (p.1 + d.1, p.2 + d.2)).1 = p.1 + d.1) ∧
      (0 ≤ p.2 + d.2 → p.2 + d.2 ≤ ARENA_HEIGHT →
        (limitPos (p.1 + d.1, p.2 + d.2)).2 = p.2 + d.2)) := by
  have hW : (0 : ℚ) < ARENA_WIDTH := by norm_num [ARENA_WIDTH]
  have hH : (0 : ℚ) < ARENA_HEIGHT := by norm_num [ARENA_HEIGHT]
  obtain ⟨hdx1, hdx2⟩ := abs_lt.mp hdx
  obtain ⟨hdy1, hdy2⟩ := abs_lt.mp hdy
  have HX := wrap_axis (p.1 + d.1) ARENA_WIDTH hW (by linarith) (by linarith)
  have HY := wrap_axis (p.2 + d.2) ARENA_HEIGHT hH (by linarith) (by linarith)
  simp only [limitPos]
  exact ⟨⟨HX.1.1, HX.1.2, HY.1.1, HY.1.2⟩, HX.2.1, HY.2.1, HX.2.2, HY.2.2⟩

/-- C6 witness: the amended theorem instantiated at the position (10, 20)
with displacement (295, -25). -/
theorem claim6_witness :
    (0 : ℚ) ≤ ((10 : ℚ), (20 : ℚ)).1 ∧ ((10 : ℚ), (20 : ℚ)).1 ≤ ARENA_WIDTH ∧
    |((295 : ℚ), (-25 : ℚ)).1| < ARENA_WIDTH ∧
    (0 : ℚ) ≤ ((10 : ℚ), (20 : ℚ)).2 ∧ ((10 : ℚ), (20 : ℚ)).2 ≤ ARENA_HEIGHT ∧
    |((295 : ℚ), (-25 : ℚ)).2| < ARENA_HEIGHT ∧
    (0 ≤ (limitPos (((10 : ℚ), (20 : ℚ)).1 + ((295 : ℚ), (-25 : ℚ)).1,
        ((10 : ℚ), (20 : ℚ)).2 + ((295 : ℚ), (-25 : ℚ)).2)).1 ∧
      (limitPos (((10 : ℚ), (20 : ℚ)).1 + ((295 : ℚ), (-25 : ℚ)).1,
        ((10 : ℚ), (20 : ℚ)).2 + ((295 : ℚ), (-25 : ℚ)).2)).1 ≤ ARENA_WIDTH) := by
  have habx : |((295 : ℚ), (-25 : ℚ)).1| < ARENA_WIDTH := by
    norm_num [ARENA_WIDTH]
  have haby : |((295 : ℚ), (-25 : ℚ)).2| < ARENA_HEIGHT := by
    norm_num [ARENA_HEIGHT]
  have h := claim6_wrap_range ((10 : ℚ), (20 : ℚ)) ((295 : ℚ), (-25 : ℚ))
    (by norm_num) (by norm_num [ARENA_WIDTH]) habx
    (by norm_num) (by norm_num [ARENA_HEIGHT]) haby
  exact ⟨by norm_num, by norm_num [ARENA_WIDTH], habx,
    by norm_num, by norm_num [ARENA_HEIGHT], haby, h.1.1, h.1.2.1⟩

/-- C7: over any sequence of ship-input ticks starting from a state with a
non-negative reload timer and reload interval (as `Ship::default()` is),
the reload timer observed at every tick is non-negative, a bullet is
spawned on a tick exactly when that tick's starting reload timer equals 0
and shoot is held, and the final timer is also non-negative. -/
theorem claim7_reload_clamp (s : ShipState) (inputs : List (ℚ × Bool))
    (h1 : 0 ≤ s.reload_timer) (h2 : 0 ≤ s.time_to_reload) :
    (∀ x ∈ shipTrace s inputs, 0 ≤ x.1.reload_timer ∧
      (x.2.2 = true ↔ (x.1.reload_timer = 0 ∧ x.2.1.2 = true))) ∧
    0 ≤ (shipRun s inputs).reload_timer := by
  induction inputs generalizing s with
  | nil =>
    refine ⟨?_, h1⟩
    intro x hx
    simp [shipTrace] at hx
  | cons i rest ih =>
    obtain ⟨ht, httr⟩ := shipTick_timer s i.1 i.2 h1 h2
    have IH := ih (shipTick s i.1 i.2).1 ht (httr ▸ h2)
    constructor
    · intro x hx
      simp only [shipTrace] at hx
      rcases List.mem_cons.mp hx with hx | hx
      · rw [hx]
        exact ⟨h1, shipTick_fired s i.1 i.2 h1⟩
      · exact IH.1 x hx
    · exact IH.2

/-- C7 witness: the theorem instantiated at `Ship::default()` over two
ticks (a shot at timer 0, then a tick of cooldown). -/
theorem claim7_witness :
    0 ≤ shipDefault.reload_timer ∧ 0 ≤ shipDefault.time_to_reload ∧
    ((∀ x ∈ shipTrace shipDefault [((1 : ℚ) / 20, true), ((1 : ℚ) / 20, true)],
        0 ≤ x.1.reload_timer ∧
        (x.2.2 = true ↔ (x.1.reload_timer = 0 ∧ x.2.1.2 = true))) ∧
      0 ≤ (shipRun shipDefault [((1 : ℚ) / 20, true), ((1 : ℚ) / 20, true)]).reload_timer) :=
  ⟨by norm_num [shipDefault], by norm_num [shipDefault],
    claim7_reload_clamp shipDefault [((1 : ℚ) / 20, true), ((1 : ℚ) / 20, true)]
      (by norm_num [shipDefault]) (by norm_num [shipDefault])⟩

/-- C8: whenever `player_is_immortal` is true, a whole collision pass over
any list of intersecting pairs, whatever colliders they carry, leaves
`player_is_dead` exactly as it was: under immortality the resolver never
transitions the death flag. -/
theorem claim8_immortality (w : World) (st : ResolveState)
    (pairs : List ((Collider × Entity) × (Collider × Entity)))
    (h : st.player_is_immortal = true) :
    (resolveTick w st pairs).player_is_dead = st.player_is_dead := by
  induction pairs generalizing st with
  | nil => rfl
  | cons p rest ih =>
    have h2 : (resolvePair w st p.1 p.2).player_is_immortal = true := by
      rw [resolvePair_immortal]
      exact h
    calc (resolveTick w st (p :: rest)).player_is_dead
        = (resolveTick w (resolvePair w st p.1 p.2) rest).player_is_dead := rfl
      _ = (resolvePair w st p.1 p.2).player_is_dead := ih _ h2
      _ = st.player_is_dead := resolvePair_dead_immortal w st p.1 p.2 h

/-- C8 witness: the theorem instantiated at an immortal state and a tick
containing a Ship/Asteroid and a Ship/Bullet pair. -/
theorem claim8_witness :
    ({ exState with player_is_immortal := true } : ResolveState).player_is_immortal = true ∧
    (resolveTick exWorld { exState with player_is_immortal := true }
        [((Collider.ship, 3), (Collider.asteroid, 2)),
          ((Collider.bullet, 1), (Collider.ship, 3))]).player_is_dead
      = ({ exState with player_is_immortal := true } : ResolveState).player_is_dead :=
  ⟨rfl, claim8_immortality exWorld { exState with player_is_immortal := true }
    [((Collider.ship, 3), (Collider.asteroid, 2)),
      ((Collider.bullet, 1), (Collider.ship, 3))] rfl⟩

/-- C9: a bullet with positive time-to-live, ticked by the bullet-kill
system at a constant positive Δt, is alive after n ticks with remaining
life ttl − n·Δt exactly while that value is positive, and is removed on
the first tick where the decremented time-to-live reaches zero or below. -/
theorem claim9_bullet_ttl (ttl dt : ℚ) (h1 : 0 < ttl) (h2 : 0 < dt) (n : ℕ) :
    bulletAfter ttl dt n = if 0 < ttl - n * dt then some (ttl - n * dt) else none := by
  induction n with
  | zero => simp [bulletAfter, h1]
  | succ n ih =>
    rw [bulletAfter, ih]
    by_cases h : 0 < ttl - n * dt
    · rw [if_pos h]
      simp only [killBulletTick]
      push_cast
      by_cases h3 : ttl - (n + 1) * dt > 0
      · rw [if_neg (by linarith), if_pos (by linarith)]
        ring_nf
      · rw [if_pos (by linarith), if_neg (by linarith)]
    · rw [if_neg h, if_neg (by push_cast; push_cast at h; linarith)]

/-- C9 witness: Scenario B, a `Bullet::new()` bullet (ttl = 2.0) ticked at
Δt = 0.5 survives the first three ticks and is removed exactly on the
fourth. -/
theorem claim9_witness :
    (0 : ℚ) < bulletNew ∧ (0 : ℚ) < 1 / 2 ∧
    bulletAfter bulletNew (1 / 2) 3 = some (1 / 2) ∧
    bulletAfter bulletNew (1 / 2) 4 = none := by
  refine ⟨by norm_num [bulletNew], by norm_num, ?_, ?_⟩
  · have h := claim9_bullet_ttl bulletNew (1 / 2) (by norm_num [bulletNew]) (by norm_num) 3
    norm_num [bulletNew] at h
    exact h
  · have h := claim9_bullet_ttl bulletNew (1 / 2) (by norm_num [bulletNew]) (by norm_num) 4
    norm_num [bulletNew] at h
    exact h

/-- C10: every child asteroid spawned by the split routine has scale
exactly 1 (hence bounding radius exactly MIN_RADIUS and area exactly
MIN_AREA), sits at the position passed to the routine, and is tagged
Deferred; the destroyed area determines only the number of children and is
never divided among them. -/
theorem claim10_child_scale_one (p : Pos) (c : ℚ) :
    (spawn_asteroid_cluster p c).length = clusterCount c ∧
    ∀ ch ∈ spawn_asteroid_cluster p c,
      ch.scale = 1 ∧ ch.radius = MIN_RADIUS ∧ ch.radius ^ 2 = min_area ∧
      ch.pos = p ∧ ch.collider = Collider.deferred DeferredCollider.asteroid := by
  refine ⟨by simp [spawn_asteroid_cluster], ?_⟩
  intro ch hch
  have hch2 : ch = spawn_asteroid p 1 true :=
    List.eq_of_mem_replicate (by simpa [spawn_asteroid_cluster] using hch)
  rw [hch2]
  refine ⟨rfl, ?_, ?_, rfl, rfl⟩
  · simp [spawn_asteroid]
  · simp [spawn_asteroid, min_area]

/-- C10 witness: the theorem instantiated at area 48·π (a one-child split)
and its concrete child. -/
theorem claim10_witness :
    (spawn_asteroid_cluster ((0 : ℚ), (0 : ℚ)) 48).length = clusterCount 48 ∧
    spawn_asteroid ((0 : ℚ), (0 : ℚ)) 1 true ∈ spawn_asteroid_cluster ((0 : ℚ), (0 : ℚ)) 48 ∧
    ((spawn_asteroid ((0 : ℚ), (0 : ℚ)) 1 true).scale = 1 ∧
      (spawn_asteroid ((0 : ℚ), (0 : ℚ)) 1 true).radius = MIN_RADIUS ∧
      (spawn_asteroid ((0 : ℚ), (0 : ℚ)) 1 true).radius ^ 2 = min_area ∧
      (spawn_asteroid ((0 : ℚ), (0 : ℚ)) 1 true).pos = ((0 : ℚ), (0 : ℚ)) ∧
      (spawn_asteroid ((0 : ℚ), (0 : ℚ)) 1 true).collider
        = Collider.deferred DeferredCollider.asteroid) := by
  have hm : spawn_asteroid ((0 : ℚ), (0 : ℚ)) 1 true
      ∈ spawn_asteroid_cluster ((0 : ℚ), (0 : ℚ)) 48 := by
    rw [spawn_asteroid_cluster, clusterCount_48]
    simp
  exact ⟨(claim10_child_scale_one ((0 : ℚ), (0 : ℚ)) 48).1, hm,
    (claim10_child_scale_one ((0 : ℚ), (0 : ℚ)) 48).2 _ hm⟩

end AsteroidsGame
